import Mathlib

/-!
Verification of the Starlark environment-bridging layer of PyOxidizer
(`pyoxidizer/src/starlark/env.rs`).

Paths are modelled structurally: an `RPath` is an absolute/relative flag plus
the list of `components()` of the Rust path (where `"."` and `".."` components
are kept literally).  Filesystem-independent path operations (`join`, `parent`,
`is_relative`, the `path_dedot::ParseDot::parse_dot` normalization) are
translated from their Rust semantics.  The only fallible environment
interaction is reading the process current directory, modelled by `SysEnv`.
-/

set_option autoImplicit false

/-- A Rust `Path`/`PathBuf`, as its sequence of components. -/
structure RPath where
  absolute : Bool
  comps : List String
deriving DecidableEq, Repr

/-- Translation of `Path::is_relative`. -/
def RPath.is_relative (p : RPath) : Bool := !p.absolute

/-- Translation of `Path::join`: an absolute argument replaces the receiver. -/
def RPath.join (p q : RPath) : RPath :=
  if q.absolute then q else ⟨p.absolute, p.comps ++ q.comps⟩

/-- Translation of `Path::parent`: `none` for an empty or root-only path, otherwise the path
with its last component dropped. -/
def RPath.parent (p : RPath) : Option RPath :=
  match p.comps with
  | [] => Option.none
  | _ :: _ => Option.some ⟨p.absolute, p.comps.dropLast⟩

/-- Display of a path built from components (Unix separator). -/
def RPath.display (p : RPath) : String :=
  (if p.absolute then "/" else "") ++ String.intercalate "/" p.comps

/-- Lexical `"."`/`".."` elimination over components, with `acc` the reversed
stack of already-emitted components.  On an absolute path a `".."` with an
empty stack is dropped (cannot go above the root); on a relative path it is
kept, as are `".."` entries stacked on other `".."` entries. -/
def dedotAux (abs : Bool) (acc : List String) : List String → List String
  | [] => acc.reverse
  | c :: rest =>
    if c = "." then dedotAux abs acc rest
    else if c = ".." then
      match acc with
      | [] => if abs then dedotAux abs [] rest else dedotAux abs [".."] rest
      | top :: accTail =>
        if top = ".." then dedotAux abs (".." :: acc) rest
        else dedotAux abs accTail rest
    else dedotAux abs (c :: acc) rest

/-- The pure part of `path_dedot` normalization: remove `"."` components and
resolve `".."` components lexically. -/
def RPath.dedot (p : RPath) : RPath :=
  ⟨p.absolute, dedotAux p.absolute [] p.comps⟩

/-- Error produced when a path cannot be normalized (`std::io::Error` from
`path_dedot`, raised only when the process current directory is needed but
cannot be read). -/
inductive PathError where
  | currentDirUnavailable
deriving DecidableEq, Repr

/-- The ambient process state: `std::env::current_dir()`, `none` when the call
would fail. -/
structure SysEnv where
  currentDir : Option RPath
deriving DecidableEq, Repr

/-- Translation of `path_dedot::ParseDot::parse_dot`.  An absolute path is normalized purely.
A relative path starting with a `"."` or `".."` component is resolved against
the process current directory (the only failure point); other relative paths
are normalized purely. -/
def RPath.parse_dot (p : RPath) (env : SysEnv) : Except PathError RPath :=
  if p.absolute then Except.ok p.dedot
  else
    match p.comps with
    | [] => Except.ok p.dedot
    | c :: _ =>
      if c = "." ∨ c = ".." then
        match env.currentDir with
        | Option.none => Except.error PathError.currentDirUnavailable
        | Option.some cd => Except.ok ((cd.join p).dedot)
      else Except.ok p.dedot

/-- Translation of `slog::Logger`, kept abstract as an identifier. -/
structure Logger where
  id : Nat
deriving DecidableEq, Repr

/-- Translation of `DistributionCache::new(storage_dir)`: only the construction argument is
relevant here. -/
structure DistributionCache where
  storage_dir : Option RPath
deriving DecidableEq, Repr

def DistributionCache.new (storage_dir : Option RPath) : DistributionCache :=
  ⟨storage_dir⟩

/-- Translation of `PyOxidizerEnvironmentContext`: state for evaluating a Starlark config. -/
structure PyOxidizerEnvironmentContext where
  logger : Logger
  verbose : Bool
  cwd : RPath
  config_path : RPath
  build_host_triple : String
  build_target_triple : String
  build_release : Bool
  build_opt_level : String
  build_path : RPath
  python_distributions_path : RPath
  distribution_cache : DistributionCache
deriving DecidableEq, Repr

/-- Failure modes of `PyOxidizerEnvironmentContext::new`. -/
inductive NewError where
  | noParent
  | currentDirUnavailable
deriving DecidableEq, Repr

/-- Translation of `PyOxidizerEnvironmentContext::new`: resolve the config file's parent
directory (joined onto the process current directory when relative), derive
`build_path = parent/"build"` and
`python_distributions_path = build_path/"python_distributions"`, and reuse the
supplied distribution cache or construct one scoped to
`python_distributions_path`. -/
def PyOxidizerEnvironmentContext.new (env : SysEnv) (logger : Logger)
    (verbose : Bool) (config_path : RPath)
    (build_host_triple build_target_triple : String) (build_release : Bool)
    (build_opt_level : String) (distribution_cache : Option DistributionCache) :
    Except NewError PyOxidizerEnvironmentContext :=
  match config_path.parent with
  | Option.none => Except.error NewError.noParent
  | Option.some parent =>
    let resolved : Except NewError RPath :=
      if parent.is_relative then
        match env.currentDir with
        | Option.none => Except.error NewError.currentDirUnavailable
        | Option.some cd => Except.ok (cd.join parent)
      else Except.ok parent
    match resolved with
    | Except.error e => Except.error e
    | Except.ok parent =>
      let build_path := parent.join ⟨false, ["build"]⟩
      let python_distributions_path :=
        build_path.join ⟨false, ["python_distributions"]⟩
      let distribution_cache := distribution_cache.getD
        (DistributionCache.new (Option.some python_distributions_path))
      Except.ok
        { logger := logger
          verbose := verbose
          cwd := parent
          config_path := config_path
          build_host_triple := build_host_triple
          build_target_triple := build_target_triple
          build_release := build_release
          build_opt_level := build_opt_level
          build_path := build_path
          python_distributions_path := python_distributions_path
          distribution_cache := distribution_cache }

/-- Translation of `PyOxidizerEnvironmentContext::set_build_path`: resolve the argument
against `self.cwd` when relative, normalize it with `parse_dot`, and on
success replace `build_path` and `python_distributions_path` together. -/
def PyOxidizerEnvironmentContext.set_build_path
    (self : PyOxidizerEnvironmentContext) (env : SysEnv) (path : RPath) :
    Except PathError PyOxidizerEnvironmentContext :=
  match (if path.is_relative then self.cwd.join path else path).parse_dot env with
  | Except.error e => Except.error e
  | Except.ok p =>
    Except.ok { self with
      build_path := p
      python_distributions_path := p.join ⟨false, ["python_distributions"]⟩ }

/-- The observable effect of one `set_build_path` call on the `&mut self`
receiver: the updated state on success, the untouched state plus the error on
failure (the Rust method performs no mutation before its `?` early return). -/
def set_build_path_call (self : PyOxidizerEnvironmentContext) (env : SysEnv)
    (path : RPath) : PyOxidizerEnvironmentContext × Option PathError :=
  match self.set_build_path env path with
  | Except.ok c => (c, Option.none)
  | Except.error e => (self, Option.some e)

/-- Translation of `starlark_dialect_build_targets::GetStateError`. -/
inductive GetStateError where
  | InvalidKey (key : String)
deriving DecidableEq, Repr

/-- Translation of `PyOxidizerBuildContext`: build context for PyOxidizer's Starlark types. -/
structure PyOxidizerBuildContext where
  logger : Logger
  host_triple : String
  target_triple : String
  release : Bool
  opt_level : String
  output_path : RPath
deriving DecidableEq, Repr

/-- Translation of `BuildContext::get_state_string` for `PyOxidizerBuildContext`. -/
def PyOxidizerBuildContext.get_state_string (self : PyOxidizerBuildContext)
    (key : String) : Except GetStateError String :=
  if key = "host_triple" then Except.ok self.host_triple
  else if key = "target_triple" then Except.ok self.target_triple
  else if key = "opt_level" then Except.ok self.opt_level
  else Except.error (GetStateError.InvalidKey key)

/-- Translation of `BuildContext::get_state_bool` for `PyOxidizerBuildContext`. -/
def PyOxidizerBuildContext.get_state_bool (self : PyOxidizerBuildContext)
    (key : String) : Except GetStateError Bool :=
  if key = "release" then Except.ok self.release
  else Except.error (GetStateError.InvalidKey key)

/-- Translation of `BuildContext::get_state_path` for `PyOxidizerBuildContext`. -/
def PyOxidizerBuildContext.get_state_path (self : PyOxidizerBuildContext)
    (key : String) : Except GetStateError RPath :=
  if key = "output_path" then Except.ok self.output_path
  else Except.error (GetStateError.InvalidKey key)

/-- A Starlark `Value` as used by this module: `None`, booleans, integers,
strings, named function objects registered by modules, and the wrapped
`PyOxidizerEnvironmentContext` (the `TypedValue` with type tag
`"EnvironmentContext"`). -/
inductive SValue where
  | none
  | bool (b : Bool)
  | int (n : Int)
  | str (s : String)
  | fn (name : String)
  | ctxVal (c : PyOxidizerEnvironmentContext)
deriving DecidableEq, Repr

/-- Translation of `Value::to_string` (display form: strings render without quotes). -/
def SValue.to_string : SValue → String
  | SValue.none => "None"
  | SValue.bool b => if b then "True" else "False"
  | SValue.int n => toString n
  | SValue.str s => s
  | SValue.fn name => "<function " ++ name ++ ">"
  | SValue.ctxVal _ => "<EnvironmentContext>"

/-- Translation of `Value::downcast_ref` at `PyOxidizerEnvironmentContext`. -/
def SValue.downcast_env_context : SValue → Option PyOxidizerEnvironmentContext
  | SValue.ctxVal c => Option.some c
  | _ => Option.none

/-- Translation of `starlark::values::error::ValueError`, restricted to the variants this
module produces. -/
inductive ValueError where
  | RuntimeError (code message label : String)
  | IncorrectParameterType
deriving DecidableEq, Repr

/-- Translation of `starlark::environment::TypeValues`: the secondary attribute surface,
keyed by a type tag and an attribute name.  A later `add_type_value` entry
shadows an earlier one for the same key pair. -/
structure TypeValues where
  entries : List (String × String × SValue)
deriving DecidableEq, Repr

def TypeValues.add_type_value (tv : TypeValues) (ty attr : String)
    (v : SValue) : TypeValues :=
  ⟨(ty, attr, v) :: tv.entries⟩

def TypeValues.get_type_value (tv : TypeValues) (ty attr : String) :
    Option SValue :=
  (tv.entries.find? (fun e => e.1 == ty && e.2.1 == attr)).map (fun e => e.2.2)

/-- Translation of `get_context`: look up the `"CONTEXT"` attribute on the `"PyOxidizer"`
type tag, failing with the `PYOXIDIZER` runtime error when absent. -/
def get_context (type_values : TypeValues) : Except ValueError SValue :=
  match type_values.get_type_value "PyOxidizer" "CONTEXT" with
  | Option.some v => Except.ok v
  | Option.none =>
    Except.error (ValueError.RuntimeError "PYOXIDIZER"
      "Unable to resolve context (this should never happen)" "")

/-- The `slog` levels used here. -/
inductive LogLevel where
  | warn
deriving DecidableEq, Repr

/-- One record written to a `slog::Logger`. -/
structure LogRecord where
  logger : Logger
  level : LogLevel
  message : String
deriving DecidableEq, Repr

/-- The `parts` vector built by `starlark_print`'s loop: a space separator
before every argument except the first, then the argument's display text. -/
def printPartsAux (first : Bool) : List SValue → List String
  | [] => []
  | a :: rest =>
    (if first then [] else [" "]) ++ [a.to_string] ++ printPartsAux false rest

/-- Translation of `starlark_print`: resolve and downcast the context, then log one line at
warning level (`parts.join("")`) and return `None`. -/
def starlark_print (type_values : TypeValues) (args : List SValue) :
    Except ValueError (LogRecord × SValue) :=
  match get_context type_values with
  | Except.error e => Except.error e
  | Except.ok raw =>
    match raw.downcast_env_context with
    | Option.none => Except.error ValueError.IncorrectParameterType
    | Option.some context =>
      Except.ok
        (⟨context.logger, LogLevel.warn,
          String.join (printPartsAux true args)⟩, SValue.none)

/-- Specification-worded rendering: the arguments' texts joined with a single
space between consecutive elements and no leading separator. -/
def spaceJoined : List String → String
  | [] => ""
  | [a] => a
  | a :: b :: rest => a ++ " " ++ spaceJoined (b :: rest)

/-- Translation of `starlark::environment::EnvironmentError`, restricted to what this module
can produce. -/
inductive EnvironmentError where
  | VariableNotFound (name : String)
deriving DecidableEq, Repr

/-- Translation of `starlark::environment::Environment`: the primary name-to-value binding
surface.  `set` shadows any earlier binding of the same name. -/
structure Environment where
  vars : List (String × SValue)
deriving DecidableEq, Repr

def Environment.get? (e : Environment) (name : String) : Option SValue :=
  (e.vars.find? (fun p => p.1 == name)).map (fun p => p.2)

def Environment.set (e : Environment) (name : String) (v : SValue) :
    Environment :=
  ⟨(name, v) :: e.vars⟩

def Environment.get (e : Environment) (name : String) :
    Except EnvironmentError SValue :=
  match e.get? name with
  | Option.some v => Except.ok v
  | Option.none => Except.error (EnvironmentError.VariableNotFound name)

/-- Modelled from the spec: the out-of-scope dialect and domain built-in
modules (`starlark_dialect_build_targets` registration and the
`file_resource`/`python_distribution`/`python_executable`/
`python_packaging_policy` modules, whose sources are not part of this core)
act on the environment only through these registration operations
(binding a global name or adding a type value). -/
inductive RegOp where
  | setVar (name : String) (v : SValue)
  | addTypeValue (ty name : String) (v : SValue)
deriving DecidableEq, Repr

def applyOp : RegOp → Environment × TypeValues → Environment × TypeValues
  | RegOp.setVar n v, (e, tv) => (e.set n v, tv)
  | RegOp.addTypeValue ty n v, (e, tv) => (e, tv.add_type_value ty n v)

def applyOps (ops : List RegOp) (s : Environment × TypeValues) :
    Environment × TypeValues :=
  ops.foldl (fun s op => applyOp op s) s

/-- Translation of `global_module`: the `starlark_module!` block registering `print` and
`set_build_path` as global functions. -/
def global_module (e : Environment) : Environment :=
  (e.set "print" (SValue.fn "print")).set "set_build_path"
    (SValue.fn "set_build_path")

/-- The fixed allow-list aliased onto the `PyOxidizer` type tag, in source
order. -/
def aliasedNames : List String :=
  ["set_build_path", "CONTEXT", "CWD", "CONFIG_PATH", "BUILD_TARGET_TRIPLE"]

/-- The aliasing loop of `global_environment`: for each allow-listed name,
fetch its binding from the primary environment (`env.get(f)?`) and republish
it under the `"PyOxidizer"` type tag. -/
def addAliases (env : Environment) : List String → TypeValues →
    Except EnvironmentError TypeValues
  | [], tv => Except.ok tv
  | f :: rest, tv =>
    match env.get f with
    | Except.error e => Except.error e
    | Except.ok v => addAliases env rest (tv.add_type_value "PyOxidizer" f v)

/-- Translation of `global_environment`: starting from the base environment (stdlib), apply
the dialect registrations, this module's `global_module`, the domain module
registrations, then bind the `CWD`/`CONFIG_PATH`/`BUILD_TARGET_TRIPLE`
constants and the wrapped `CONTEXT` handle, and finally run the aliasing
pass. -/
def global_environment (base : Environment × TypeValues)
    (dialectOps domainOps : List RegOp)
    (context : PyOxidizerEnvironmentContext) :
    Except EnvironmentError (Environment × TypeValues) :=
  let s1 := applyOps dialectOps base
  let s2 := (global_module s1.1, s1.2)
  let s3 := applyOps domainOps s2
  let env := s3.1
  let env := env.set "CWD" (SValue.str context.cwd.display)
  let env := env.set "CONFIG_PATH" (SValue.str context.config_path.display)
  let env := env.set "BUILD_TARGET_TRIPLE"
    (SValue.str context.build_target_triple)
  let env := env.set "CONTEXT" (SValue.ctxVal context)
  match addAliases env aliasedNames s3.2 with
  | Except.error e => Except.error e
  | Except.ok tv => Except.ok (env, tv)

/-! Concrete fixtures used by witness theorems. -/

def exSysEnv : SysEnv := ⟨Option.some ⟨true, []⟩⟩

def exNoCwdEnv : SysEnv := ⟨Option.none⟩

def exLogger : Logger := ⟨0⟩

def exCache : DistributionCache := ⟨Option.none⟩

/-- A context whose working directory is `/proj` (scenario B's starting
state). -/
def exCtxProj : PyOxidizerEnvironmentContext :=
  { logger := exLogger
    verbose := false
    cwd := ⟨true, ["proj"]⟩
    config_path := ⟨true, ["proj", "cfg.star"]⟩
    build_host_triple := "x86_64-unknown-linux-gnu"
    build_target_triple := "x86_64-unknown-linux-gnu"
    build_release := false
    build_opt_level := "0"
    build_path := ⟨true, ["proj", "build"]⟩
    python_distributions_path := ⟨true, ["proj", "build", "python_distributions"]⟩
    distribution_cache := exCache }

/-- The state of `exCtxProj` after `set_build_path("../out")` succeeded: `build_path` is
`/out` and `python_distributions_path` is `/out/python_distributions`. -/
def exCtxOut : PyOxidizerEnvironmentContext :=
  { exCtxProj with
    build_path := ⟨true, ["out"]⟩
    python_distributions_path := ⟨true, ["out", "python_distributions"]⟩ }

/-- A (constructor-unreachable) context with a relative working directory,
driving `parse_dot` into its fallible branch. -/
def exCtxRelCwd : PyOxidizerEnvironmentContext :=
  { exCtxProj with cwd := ⟨false, [".."]⟩ }

/-! Helper lemmas about paths. -/

theorem RPath.join_absolute (p q : RPath) :
    (p.join q).absolute = (q.absolute || p.absolute) := by
  unfold RPath.join
  by_cases h : q.absolute = true <;> simp [h]

theorem RPath.parse_dot_absolute (p : RPath) (env : SysEnv)
    (h : p.absolute = true) : p.parse_dot env = Except.ok p.dedot := by
  simp [RPath.parse_dot, h]

theorem RPath.parent_absolute (p par : RPath) (h : p.parent = Option.some par) :
    par.absolute = p.absolute := by
  unfold RPath.parent at h
  split at h
  · exact absurd h (by simp)
  · cases h
    rfl

/-- Claim C1: after a successful `set_build_path(P)`,
`python_distributions_path` equals `build_path/"python_distributions"` and
`build_path` is the `parse_dot` normalization of `P` resolved against the
stored working directory when relative; with an absolute working directory
this is exactly the lexical dot-normalized form. -/
theorem claim_C1 (env : SysEnv) (ctx ctx' : PyOxidizerEnvironmentContext)
    (p : RPath) (h : ctx.set_build_path env p = Except.ok ctx') :
    ctx'.python_distributions_path =
      ctx'.build_path.join ⟨false, ["python_distributions"]⟩ ∧
    (if p.is_relative then ctx.cwd.join p else p).parse_dot env =
      Except.ok ctx'.build_path ∧
    (ctx.cwd.absolute = true →
      ctx'.build_path = (if p.is_relative then ctx.cwd.join p else p).dedot) := by
  unfold PyOxidizerEnvironmentContext.set_build_path at h
  cases hp : (if p.is_relative then ctx.cwd.join p else p).parse_dot env with
  | error e =>
    rw [hp] at h
    exact absurd h (by simp)
  | ok q =>
    rw [hp] at h
    cases h
    refine ⟨rfl, rfl, ?_⟩
    intro hcwd
    have habs : (if p.is_relative then ctx.cwd.join p else p).absolute = true := by
      by_cases hrel : p.is_relative = true
      · simp [hrel, RPath.join_absolute, hcwd]
      · have : p.absolute = true := by
          simp [RPath.is_relative] at hrel
          exact hrel
        simp [hrel, this]
    rw [RPath.parse_dot_absolute _ env habs] at hp
    exact ((Except.ok.injEq _ _).mp hp).symm

/-- Witness for C1: scenario B, `set_build_path("../out")` from working
directory `/proj` yields `build_path = /out` and
`python_distributions_path = /out/python_distributions`. -/
theorem claim_C1_witness :
    exCtxProj.set_build_path exSysEnv ⟨false, ["..", "out"]⟩ =
      Except.ok exCtxOut ∧
    exCtxOut.build_path = ⟨true, ["out"]⟩ ∧
    (exCtxOut.python_distributions_path =
      exCtxOut.build_path.join ⟨false, ["python_distributions"]⟩ ∧
    (if (⟨false, ["..", "out"]⟩ : RPath).is_relative then
        exCtxProj.cwd.join ⟨false, ["..", "out"]⟩
      else ⟨false, ["..", "out"]⟩).parse_dot exSysEnv =
      Except.ok exCtxOut.build_path ∧
    (exCtxProj.cwd.absolute = true →
      exCtxOut.build_path =
        (if (⟨false, ["..", "out"]⟩ : RPath).is_relative then
            exCtxProj.cwd.join ⟨false, ["..", "out"]⟩
          else ⟨false, ["..", "out"]⟩).dedot)) :=
  ⟨rfl, rfl,
    claim_C1 exSysEnv exCtxProj exCtxOut ⟨false, ["..", "out"]⟩ rfl⟩

/-- Claim C2: a failed `set_build_path` call leaves `build_path` and
`python_distributions_path` exactly as they were before the call. -/
theorem claim_C2 (env : SysEnv) (ctx : PyOxidizerEnvironmentContext)
    (p : RPath) (h : ((set_build_path_call ctx env p).2).isSome = true) :
    (set_build_path_call ctx env p).1.build_path = ctx.build_path ∧
    (set_build_path_call ctx env p).1.python_distributions_path =
      ctx.python_distributions_path := by
  unfold set_build_path_call at *
  cases hr : ctx.set_build_path env p with
  | ok c =>
    rw [hr] at h
    simp at h
  | error e =>
    exact ⟨rfl, rfl⟩

/-- Witness for C2: a concrete failing call (relative working directory, no
readable process current directory) mutates neither path field. -/
theorem claim_C2_witness :
    ((set_build_path_call exCtxRelCwd exNoCwdEnv ⟨false, ["x"]⟩).2).isSome = true ∧
    ((set_build_path_call exCtxRelCwd exNoCwdEnv ⟨false, ["x"]⟩).1.build_path =
      exCtxRelCwd.build_path ∧
    (set_build_path_call exCtxRelCwd exNoCwdEnv
        ⟨false, ["x"]⟩).1.python_distributions_path =
      exCtxRelCwd.python_distributions_path) :=
  ⟨by decide, claim_C2 exNoCwdEnv exCtxRelCwd ⟨false, ["x"]⟩ (by decide)⟩

/-- Claim C9: every `set_build_path` call, successful or not, leaves every
context field other than `build_path` and `python_distributions_path`
unchanged. -/
theorem claim_C9 (env : SysEnv) (ctx : PyOxidizerEnvironmentContext)
    (p : RPath) :
    (set_build_path_call ctx env p).1.logger = ctx.logger ∧
    (set_build_path_call ctx env p).1.verbose = ctx.verbose ∧
    (set_build_path_call ctx env p).1.cwd = ctx.cwd ∧
    (set_build_path_call ctx env p).1.config_path = ctx.config_path ∧
    (set_build_path_call ctx env p).1.build_host_triple =
      ctx.build_host_triple ∧
    (set_build_path_call ctx env p).1.build_target_triple =
      ctx.build_target_triple ∧
    (set_build_path_call ctx env p).1.build_release = ctx.build_release ∧
    (set_build_path_call ctx env p).1.build_opt_level = ctx.build_opt_level ∧
    (set_build_path_call ctx env p).1.distribution_cache =
      ctx.distribution_cache := by
  unfold set_build_path_call PyOxidizerEnvironmentContext.set_build_path
  cases (if p.is_relative then ctx.cwd.join p else p).parse_dot env with
  | error e => exact ⟨rfl, rfl, rfl, rfl, rfl, rfl, rfl, rfl, rfl⟩
  | ok q => exact ⟨rfl, rfl, rfl, rfl, rfl, rfl, rfl, rfl, rfl⟩

/-- Claim C3: construction with a config path whose parent is absolute sets
`cwd` to that parent, `build_path` to `parent/"build"` and
`python_distributions_path` to `build_path/"python_distributions"`. -/
theorem claim_C3 (env : SysEnv) (logger : Logger) (verbose : Bool)
    (config_path par : RPath) (host target : String) (release : Bool)
    (opt : String) (cache : Option DistributionCache)
    (hpar : config_path.parent = Option.some par)
    (habs : par.absolute = true) :
    ∃ ctx, PyOxidizerEnvironmentContext.new env logger verbose config_path
        host target release opt cache = Except.ok ctx ∧
      ctx.cwd = par ∧
      ctx.build_path = par.join ⟨false, ["build"]⟩ ∧
      ctx.python_distributions_path =
        (par.join ⟨false, ["build"]⟩).join ⟨false, ["python_distributions"]⟩ := by
  unfold PyOxidizerEnvironmentContext.new
  rw [hpar]
  have hrel : par.is_relative = false := by
    simp [RPath.is_relative, habs]
  simp only [hrel, Bool.false_eq_true, if_false]
  exact ⟨_, rfl, rfl, rfl, rfl⟩

/-- Witness for C3: scenario A, `config_path = /proj/cfg.star` gives
`build_path = /proj/build` and
`python_distributions_path = /proj/build/python_distributions`. -/
theorem claim_C3_witness :
    (⟨true, ["proj", "cfg.star"]⟩ : RPath).parent =
      Option.some ⟨true, ["proj"]⟩ ∧
    (⟨true, ["proj"]⟩ : RPath).absolute = true ∧
    (∃ ctx, PyOxidizerEnvironmentContext.new exSysEnv exLogger false
        ⟨true, ["proj", "cfg.star"]⟩ "h" "t" false "0" Option.none =
        Except.ok ctx ∧
      ctx.cwd = ⟨true, ["proj"]⟩ ∧
      ctx.build_path = RPath.join ⟨true, ["proj"]⟩ ⟨false, ["build"]⟩ ∧
      ctx.python_distributions_path =
        (RPath.join ⟨true, ["proj"]⟩ ⟨false, ["build"]⟩).join
          ⟨false, ["python_distributions"]⟩) :=
  ⟨by decide, by decide,
    claim_C3 exSysEnv exLogger false ⟨true, ["proj", "cfg.star"]⟩
      ⟨true, ["proj"]⟩ "h" "t" false "0" Option.none (by decide) (by decide)⟩

/-- Claim C8: for an already-absolute config path, construction never
consults the process current directory (the result is the same under any
`SysEnv`), the resolved parent is absolute, and on success the working
directory is exactly that parent, unchanged. -/
theorem claim_C8 (env env' : SysEnv) (logger : Logger) (verbose : Bool)
    (config_path : RPath) (host target : String) (release : Bool)
    (opt : String) (cache : Option DistributionCache)
    (habs : config_path.absolute = true) :
    PyOxidizerEnvironmentContext.new env logger verbose config_path host
        target release opt cache =
      PyOxidizerEnvironmentContext.new env' logger verbose config_path host
        target release opt cache ∧
    ∀ par, config_path.parent = Option.some par →
      par.absolute = true ∧
      ∀ ctx, PyOxidizerEnvironmentContext.new env logger verbose config_path
          host target release opt cache = Except.ok ctx →
        ctx.cwd = par := by
  cases hc : config_path.parent with
  | none =>
    unfold PyOxidizerEnvironmentContext.new
    rw [hc]
    exact ⟨rfl, fun par hp => absurd hp (by simp)⟩
  | some par =>
    have hpabs : par.absolute = true := by
      rw [RPath.parent_absolute config_path par hc]
      exact habs
    have hrel : par.is_relative = false := by
      simp [RPath.is_relative, hpabs]
    unfold PyOxidizerEnvironmentContext.new
    rw [hc]
    simp only [hrel, Bool.false_eq_true, if_false]
    refine ⟨trivial, fun par' hp' => ?_⟩
    rw [Option.some.injEq] at hp'
    subst hp'
    refine ⟨hpabs, fun ctx hctx => ?_⟩
    cases hctx
    rfl

/-- Witness for C8: an absolute config path yields identical construction
results under two different process environments, with `cwd` the parent. -/
theorem claim_C8_witness :
    (⟨true, ["proj", "cfg.star"]⟩ : RPath).absolute = true ∧
    (PyOxidizerEnvironmentContext.new exSysEnv exLogger false
        ⟨true, ["proj", "cfg.star"]⟩ "h" "t" false "0" Option.none =
      PyOxidizerEnvironmentContext.new exNoCwdEnv exLogger false
        ⟨true, ["proj", "cfg.star"]⟩ "h" "t" false "0" Option.none ∧
    ∀ par, (⟨true, ["proj", "cfg.star"]⟩ : RPath).parent = Option.some par →
      par.absolute = true ∧
      ∀ ctx, PyOxidizerEnvironmentContext.new exSysEnv exLogger false
          ⟨true, ["proj", "cfg.star"]⟩ "h" "t" false "0" Option.none =
          Except.ok ctx →
        ctx.cwd = par) :=
  ⟨by decide,
    claim_C8 exSysEnv exNoCwdEnv exLogger false ⟨true, ["proj", "cfg.star"]⟩
      "h" "t" false "0" Option.none (by decide)⟩

/-- A concrete build context for StateAccessor witnesses. -/
def exBuildCtx : PyOxidizerBuildContext :=
  { logger := exLogger
    host_triple := "x86_64-unknown-linux-gnu"
    target_triple := "aarch64-apple-darwin"
    release := true
    opt_level := "2"
    output_path := ⟨true, ["proj", "out"]⟩ }

/-- Claim C4: each declared StateAccessor key returns exactly the stored
value, and every undeclared key fails with `InvalidKey` carrying that exact
key, never a default. -/
theorem claim_C4 (c : PyOxidizerBuildContext) :
    (c.get_state_string "host_triple" = Except.ok c.host_triple ∧
     c.get_state_string "target_triple" = Except.ok c.target_triple ∧
     c.get_state_string "opt_level" = Except.ok c.opt_level ∧
     c.get_state_bool "release" = Except.ok c.release ∧
     c.get_state_path "output_path" = Except.ok c.output_path) ∧
    (∀ k, k ≠ "host_triple" → k ≠ "target_triple" → k ≠ "opt_level" →
      c.get_state_string k = Except.error (GetStateError.InvalidKey k)) ∧
    (∀ k, k ≠ "release" →
      c.get_state_bool k = Except.error (GetStateError.InvalidKey k)) ∧
    (∀ k, k ≠ "output_path" →
      c.get_state_path k = Except.error (GetStateError.InvalidKey k)) := by
  refine ⟨⟨rfl, rfl, rfl, rfl, rfl⟩, ?_, ?_, ?_⟩
  · intro k h1 h2 h3
    simp [PyOxidizerBuildContext.get_state_string, h1, h2, h3]
  · intro k h1
    simp [PyOxidizerBuildContext.get_state_bool, h1]
  · intro k h1
    simp [PyOxidizerBuildContext.get_state_path, h1]

/-- Witness for C4: concrete lookups on a declared and an undeclared key. -/
theorem claim_C4_witness :
    (("flavor" : String) ≠ "host_triple" ∧ ("flavor" : String) ≠ "target_triple" ∧
      ("flavor" : String) ≠ "opt_level" ∧ ("flavor" : String) ≠ "release" ∧
      ("flavor" : String) ≠ "output_path") ∧
    exBuildCtx.get_state_string "host_triple" =
      Except.ok "x86_64-unknown-linux-gnu" ∧
    exBuildCtx.get_state_bool "release" = Except.ok true ∧
    exBuildCtx.get_state_string "flavor" =
      Except.error (GetStateError.InvalidKey "flavor") ∧
    exBuildCtx.get_state_bool "flavor" =
      Except.error (GetStateError.InvalidKey "flavor") ∧
    exBuildCtx.get_state_path "flavor" =
      Except.error (GetStateError.InvalidKey "flavor") :=
  ⟨by decide,
    (claim_C4 exBuildCtx).1.1,
    (claim_C4 exBuildCtx).1.2.2.2.1,
    (claim_C4 exBuildCtx).2.1 "flavor" (by decide) (by decide) (by decide),
    (claim_C4 exBuildCtx).2.2.1 "flavor" (by decide),
    (claim_C4 exBuildCtx).2.2.2 "flavor" (by decide)⟩

/-- Claim C10: the three keyspaces are disjoint with no cross-keyspace
fallback: keys declared in one keyspace are `InvalidKey` failures in the
others. -/
theorem claim_C10 (c : PyOxidizerBuildContext) :
    c.get_state_string "release" =
      Except.error (GetStateError.InvalidKey "release") ∧
    c.get_state_string "output_path" =
      Except.error (GetStateError.InvalidKey "output_path") ∧
    c.get_state_bool "host_triple" =
      Except.error (GetStateError.InvalidKey "host_triple") ∧
    c.get_state_bool "opt_level" =
      Except.error (GetStateError.InvalidKey "opt_level") ∧
    c.get_state_path "opt_level" =
      Except.error (GetStateError.InvalidKey "opt_level") ∧
    c.get_state_path "release" =
      Except.error (GetStateError.InvalidKey "release") :=
  ⟨rfl, rfl, rfl, rfl, rfl, rfl⟩

/-! Lemmas relating the print loop to the specification's space-joined
rendering. -/

theorem String.join_cons_eq (s : String) (l : List String) :
    String.join (s :: l) = s ++ String.join l := by
  apply String.ext
  simp [String.join_eq]

theorem printPartsAux_false_cons (a : SValue) (l : List SValue) :
    printPartsAux false (a :: l) = " " :: printPartsAux true (a :: l) := rfl

theorem join_printPartsAux (l : List SValue) :
    String.join (printPartsAux true l) = spaceJoined (l.map SValue.to_string) := by
  induction l with
  | nil => rfl
  | cons a rest ih =>
    cases rest with
    | nil =>
      show String.join [a.to_string] = a.to_string
      rw [String.join_cons_eq]
      exact String.append_empty _
    | cons b r =>
      show String.join
          (a.to_string :: printPartsAux false (b :: r)) =
        a.to_string ++ " " ++ spaceJoined ((b :: r).map SValue.to_string)
      rw [printPartsAux_false_cons, String.join_cons_eq, String.join_cons_eq, ih,
        String.append_assoc]

/-- Claim C5: whenever the reserved context attribute resolves to the wrapped
environment context, `print` logs exactly one warning-level line on the
context's logger, consisting of the arguments' display texts joined with a
single space between consecutive arguments (and no leading separator), and
returns `None`. -/
theorem claim_C5 (type_values : TypeValues) (args : List SValue)
    (c : PyOxidizerEnvironmentContext)
    (h : type_values.get_type_value "PyOxidizer" "CONTEXT" =
      Option.some (SValue.ctxVal c)) :
    starlark_print type_values args =
      Except.ok
        (⟨c.logger, LogLevel.warn, spaceJoined (args.map SValue.to_string)⟩,
          SValue.none) := by
  have hj := join_printPartsAux args
  unfold starlark_print get_context
  rw [h, ← hj]
  rfl

/-- A type-values surface holding the wrapped example context. -/
def exTypeValues : TypeValues :=
  ⟨[("PyOxidizer", "CONTEXT", SValue.ctxVal exCtxProj)]⟩

/-- Witness for C5: scenario C, `print("a","b",3)` logs `"a b 3"`, `print()`
logs the empty line, `print("x")` logs `"x"`. -/
theorem claim_C5_witness :
    exTypeValues.get_type_value "PyOxidizer" "CONTEXT" =
      Option.some (SValue.ctxVal exCtxProj) ∧
    starlark_print exTypeValues [SValue.str "a", SValue.str "b", SValue.int 3] =
      Except.ok (⟨exCtxProj.logger, LogLevel.warn, "a b 3"⟩, SValue.none) ∧
    starlark_print exTypeValues [] =
      Except.ok (⟨exCtxProj.logger, LogLevel.warn, ""⟩, SValue.none) ∧
    starlark_print exTypeValues [SValue.str "x"] =
      Except.ok (⟨exCtxProj.logger, LogLevel.warn, "x"⟩, SValue.none) :=
  ⟨rfl,
    claim_C5 exTypeValues [SValue.str "a", SValue.str "b", SValue.int 3]
      exCtxProj rfl,
    claim_C5 exTypeValues [] exCtxProj rfl,
    claim_C5 exTypeValues [SValue.str "x"] exCtxProj rfl⟩

/-- Counterexample to C6 as stated: in an environment whose type-values
surface has no `CONTEXT` attribute, `print` does fail (it propagates the
context-resolution runtime error instead of returning `None`). -/
theorem claim_C6_counterexample :
    starlark_print ⟨[]⟩ [SValue.str "x"] =
      Except.error
        (ValueError.RuntimeError "PYOXIDIZER"
          "Unable to resolve context (this should never happen)" "") := rfl

/-- Claim C6 (amended): `print` never fails in any environment in which the
reserved context attribute resolves to the wrapped environment context; in
particular no failure of the logging write is ever propagated (the `slog`
write has no failure path at the call site). -/
theorem claim_C6_amended_never_fails (type_values : TypeValues)
    (args : List SValue) (c : PyOxidizerEnvironmentContext)
    (h : type_values.get_type_value "PyOxidizer" "CONTEXT" =
      Option.some (SValue.ctxVal c)) :
    ∃ line, starlark_print type_values args = Except.ok (line, SValue.none) := by
  refine ⟨⟨c.logger, LogLevel.warn, String.join (printPartsAux true args)⟩, ?_⟩
  unfold starlark_print get_context
  rw [h]
  rfl

/-- Witness for the amended C6: a concrete well-formed environment where
`print` succeeds. -/
theorem claim_C6_amended_witness :
    exTypeValues.get_type_value "PyOxidizer" "CONTEXT" =
      Option.some (SValue.ctxVal exCtxProj) ∧
    (∃ line, starlark_print exTypeValues [SValue.int 7] =
      Except.ok (line, SValue.none)) :=
  ⟨rfl, claim_C6_amended_never_fails exTypeValues [SValue.int 7] exCtxProj rfl⟩

/-! Lemmas about environment and type-value lookup, for the assembly pass. -/

theorem Environment.get?_set (e : Environment) (n m : String) (v : SValue) :
    (e.set n v).get? m = if n = m then Option.some v else e.get? m := by
  by_cases h : n = m <;>
    simp [Environment.get?, Environment.set, List.find?_cons, h]

theorem TypeValues.get_type_value_add_same (tv : TypeValues) (ty attr : String)
    (v : SValue) :
    (tv.add_type_value ty attr v).get_type_value ty attr = Option.some v := by
  simp [TypeValues.get_type_value, TypeValues.add_type_value, List.find?_cons]

theorem TypeValues.get_type_value_add_other (tv : TypeValues)
    (ty attr ty' attr' : String) (v : SValue) (h : ¬(ty' = ty ∧ attr' = attr)) :
    (tv.add_type_value ty' attr' v).get_type_value ty attr =
      tv.get_type_value ty attr := by
  have hfalse : (ty' == ty && attr' == attr) = false := by
    by_cases h1 : ty' = ty
    · have h2 : ¬attr' = attr := fun h2 => h ⟨h1, h2⟩
      simp [h1, h2]
    · simp [h1]
  simp [TypeValues.get_type_value, TypeValues.add_type_value, List.find?_cons,
    hfalse]

theorem applyOps_cons (op : RegOp) (ops : List RegOp)
    (s : Environment × TypeValues) :
    applyOps (op :: ops) s = applyOps ops (applyOp op s) := rfl

/-- Registration operations never remove a global binding. -/
theorem applyOps_env_isSome (ops : List RegOp) (s : Environment × TypeValues)
    (n : String) (h : ((s.1).get? n).isSome = true) :
    (((applyOps ops s).1).get? n).isSome = true := by
  induction ops generalizing s with
  | nil => exact h
  | cons op rest ih =>
    rw [applyOps_cons]
    apply ih
    cases op with
    | setVar m v =>
      show (((s.1.set m v)).get? n).isSome = true
      rw [Environment.get?_set]
      by_cases hm : m = n <;> simp [hm, h]
    | addTypeValue ty m v => exact h

/-- The aliasing loop succeeds as soon as every allow-listed name is bound in
the primary environment, and afterwards each listed name resolves on the
secondary surface to its primary binding; other keys are untouched. -/
theorem addAliases_ok (env : Environment) (names : List String)
    (tv : TypeValues) (h : ∀ f ∈ names, ((env.get? f)).isSome = true) :
    ∃ tvF, addAliases env names tv = Except.ok tvF ∧
      (∀ f ∈ names, tvF.get_type_value "PyOxidizer" f = env.get? f) ∧
      (∀ ty attr, (ty = "PyOxidizer" → attr ∉ names) →
        tvF.get_type_value ty attr = tv.get_type_value ty attr) := by
  induction names generalizing tv with
  | nil =>
    exact ⟨tv, rfl, by simp, fun ty attr _ => rfl⟩
  | cons f rest ih =>
    have hf := h f (List.mem_cons_self f rest)
    obtain ⟨v, hv⟩ := Option.isSome_iff_exists.mp hf
    have hrest : ∀ g ∈ rest, ((env.get? g)).isSome = true :=
      fun g hg => h g (List.mem_cons_of_mem f hg)
    obtain ⟨tvF, htvF, hmem, hpres⟩ :=
      ih (tv.add_type_value "PyOxidizer" f v) hrest
    have hget : env.get f = Except.ok v := by
      simp [Environment.get, hv]
    refine ⟨tvF, ?_, ?_, ?_⟩
    · show addAliases env (f :: rest) tv = Except.ok tvF
      simp only [addAliases, hget]
      exact htvF
    · intro g hg
      rcases List.mem_cons.mp hg with hgf | hgr
      · subst hgf
        by_cases hfr : g ∈ rest
        · exact hmem g hfr
        · rw [hpres "PyOxidizer" g (fun _ => hfr),
            TypeValues.get_type_value_add_same]
          exact hv.symm
      · exact hmem g hgr
    · intro ty attr hcond
      rw [hpres ty attr
        (fun hty hattr => hcond hty (List.mem_cons_of_mem f hattr))]
      apply TypeValues.get_type_value_add_other
      intro ⟨hty, hattr⟩
      exact hcond hty.symm (hattr ▸ List.mem_cons_self f rest)

/-- The primary environment after step 5 (constants) and step 6 (context
handle) of `global_environment`, starting from the environment `e3` left by
the module registrations. -/
def envAfterConstants (e3 : Environment)
    (context : PyOxidizerEnvironmentContext) : Environment :=
  (((e3.set "CWD" (SValue.str context.cwd.display)).set "CONFIG_PATH"
      (SValue.str context.config_path.display)).set "BUILD_TARGET_TRIPLE"
      (SValue.str context.build_target_triple)).set "CONTEXT"
      (SValue.ctxVal context)

theorem envAfterConstants_CWD (e3 : Environment)
    (context : PyOxidizerEnvironmentContext) :
    (envAfterConstants e3 context).get? "CWD" =
      Option.some (SValue.str context.cwd.display) := by
  simp [envAfterConstants, Environment.get?_set]

theorem envAfterConstants_CONFIG_PATH (e3 : Environment)
    (context : PyOxidizerEnvironmentContext) :
    (envAfterConstants e3 context).get? "CONFIG_PATH" =
      Option.some (SValue.str context.config_path.display) := by
  simp [envAfterConstants, Environment.get?_set]

theorem envAfterConstants_TRIPLE (e3 : Environment)
    (context : PyOxidizerEnvironmentContext) :
    (envAfterConstants e3 context).get? "BUILD_TARGET_TRIPLE" =
      Option.some (SValue.str context.build_target_triple) := by
  simp [envAfterConstants, Environment.get?_set]

theorem envAfterConstants_CONTEXT (e3 : Environment)
    (context : PyOxidizerEnvironmentContext) :
    (envAfterConstants e3 context).get? "CONTEXT" =
      Option.some (SValue.ctxVal context) := by
  simp [envAfterConstants, Environment.get?_set]

theorem envAfterConstants_sbp (e3 : Environment)
    (context : PyOxidizerEnvironmentContext) :
    (envAfterConstants e3 context).get? "set_build_path" =
      e3.get? "set_build_path" := by
  simp [envAfterConstants, Environment.get?_set]

/-- Claim C7: the aliasing pass of `global_environment` runs after the
constants and the context handle are bound: assembly succeeds for every base
environment and every sequence of dialect/domain module registrations, the
primary environment ends with `CWD`/`CONFIG_PATH`/`BUILD_TARGET_TRIPLE` bound
to the context-derived strings and `CONTEXT` to the wrapped context, the
`set_build_path` global registered by this module is still bound, and each
name of the fixed allow-list resolves on the `PyOxidizer` secondary surface
to exactly its binding in the primary environment. -/
theorem claim_C7 (base : Environment × TypeValues)
    (dialectOps domainOps : List RegOp)
    (context : PyOxidizerEnvironmentContext) :
    ∃ env tv,
      global_environment base dialectOps domainOps context =
        Except.ok (env, tv) ∧
      env.get? "CWD" = Option.some (SValue.str context.cwd.display) ∧
      env.get? "CONFIG_PATH" =
        Option.some (SValue.str context.config_path.display) ∧
      env.get? "BUILD_TARGET_TRIPLE" =
        Option.some (SValue.str context.build_target_triple) ∧
      env.get? "CONTEXT" = Option.some (SValue.ctxVal context) ∧
      ((env.get? "set_build_path")).isSome = true ∧
      (∀ f ∈ aliasedNames, tv.get_type_value "PyOxidizer" f = env.get? f) := by
  have hsb_pre :
      (((global_module (applyOps dialectOps base).1)).get?
        "set_build_path").isSome = true := by
    simp [global_module, Environment.get?_set]
  have hsb3 :
      (((applyOps domainOps (global_module (applyOps dialectOps base).1,
        (applyOps dialectOps base).2)).1).get? "set_build_path").isSome =
      true :=
    applyOps_env_isSome domainOps _ "set_build_path" hsb_pre
  have hsbF :
      ((envAfterConstants
        (applyOps domainOps (global_module (applyOps dialectOps base).1,
          (applyOps dialectOps base).2)).1 context).get?
        "set_build_path").isSome = true := by
    rw [envAfterConstants_sbp]
    exact hsb3
  have hmemAll : ∀ f ∈ aliasedNames,
      (((envAfterConstants
        (applyOps domainOps (global_module (applyOps dialectOps base).1,
          (applyOps dialectOps base).2)).1 context).get? f)).isSome = true := by
    intro f hf
    simp only [aliasedNames, List.mem_cons, List.not_mem_nil, or_false] at hf
    rcases hf with rfl | rfl | rfl | rfl | rfl
    · exact hsbF
    · rw [envAfterConstants_CONTEXT]
      rfl
    · rw [envAfterConstants_CWD]
      rfl
    · rw [envAfterConstants_CONFIG_PATH]
      rfl
    · rw [envAfterConstants_TRIPLE]
      rfl
  obtain ⟨tvF, hok, hmemF, _⟩ :=
    addAliases_ok
      (envAfterConstants
        (applyOps domainOps (global_module (applyOps dialectOps base).1,
          (applyOps dialectOps base).2)).1 context)
      aliasedNames
      (applyOps domainOps (global_module (applyOps dialectOps base).1,
        (applyOps dialectOps base).2)).2
      hmemAll
  refine ⟨envAfterConstants
      (applyOps domainOps (global_module (applyOps dialectOps base).1,
        (applyOps dialectOps base).2)).1 context, tvF, ?_,
    envAfterConstants_CWD _ _, envAfterConstants_CONFIG_PATH _ _,
    envAfterConstants_TRIPLE _ _, envAfterConstants_CONTEXT _ _, hsbF, hmemF⟩
  show (match addAliases
      (envAfterConstants
        (applyOps domainOps (global_module (applyOps dialectOps base).1,
          (applyOps dialectOps base).2)).1 context)
      aliasedNames
      (applyOps domainOps (global_module (applyOps dialectOps base).1,
        (applyOps dialectOps base).2)).2 with
    | Except.error e => Except.error e
    | Except.ok tv => Except.ok (envAfterConstants
        (applyOps domainOps (global_module (applyOps dialectOps base).1,
          (applyOps dialectOps base).2)).1 context, tv)) = _
  rw [hok]

/-- Witness-style instantiation for C7: in a concrete assembly the aliased
`CWD` resolves on the secondary surface to the same `"/proj"` string bound in
the primary environment. -/
theorem claim_C7_witness :
    ∃ env tv,
      global_environment (Environment.mk [], TypeValues.mk []) [] []
        exCtxProj = Except.ok (env, tv) ∧
      tv.get_type_value "PyOxidizer" "CWD" = env.get? "CWD" ∧
      env.get? "CWD" = Option.some (SValue.str "/proj") := by
  obtain ⟨env, tv, hok, hcwd, _, _, _, _, halias⟩ :=
    claim_C7 (Environment.mk [], TypeValues.mk []) [] [] exCtxProj
  exact ⟨env, tv, hok, halias "CWD" (by decide), hcwd⟩
